import Mathlib

/-!
Shallow embedding of the Triton cloud-provider instance-resolution subsystem
(`pkg/cloudprovider/providers/triton`): the `Instances` methods built on
`probeNodeAddress` / `probeMachineUUID` / `probeMachineBrand` /
`getMachineByUUID` / `getMachineByName`, together with `initMetadata`.

The remote Machine Directory (the Triton client's `GetMachine` and
`ListMachines` calls) and the cached local metadata are modelled as a fixed
environment `Env`; every operation returns its Go result (an `Except` mirroring
the `(value, error)` pair) together with a `Calls` record of which directory
calls it issued and with which arguments.
-/

/-- Embeds `triton.Machine` (the fields this provider reads): `ID`,
`PrimaryIP`, `Name`, `State`, `Brand`. -/
structure Machine where
  id : String
  primaryIP : String
  name : String
  state : String
  brand : String
deriving DecidableEq, Repr

/-- Embeds the provider's `Metadata` struct: `UUID` and `Hostname`, cached at
startup. -/
structure Metadata where
  uuid : String
  hostname : String
deriving DecidableEq, Repr

/-- The error values the resolution code distinguishes:
`cloudprovider.InstanceNotFound` (the orchestrator's not-found sentinel), the
`fmt.Errorf("No machine found by serverName: %s", ...)` error produced by
`getMachineByName`, and a transport error coming back from the Triton client. -/
inductive Err where
  | instanceNotFound : Err
  | noMachineFound : String → Err
  | network : String → Err
deriving DecidableEq, Repr

/-- Record of the Machine Directory calls an operation issued: the arguments of
its `GetMachine` calls, in order, and the number of `ListMachines` calls. -/
structure Calls where
  getArgs : List String
  listCalls : Nat
deriving DecidableEq, Repr

/-- A fixed provider state: the cached `Metadata` plus the behaviour of the
Triton client's `GetMachine` (per requested UUID) and `ListMachines` calls
during the operation under scrutiny. -/
structure Env where
  metadata : Metadata
  getMachineResult : String → Except Err Machine
  listMachinesResult : Except Err (List Machine)

deriving instance DecidableEq for Except

/-- Embeds `Instances.getMachineByUUID`: one `GetMachine` call, whose result
(or error) is returned unchanged. -/
def getMachineByUUID (env : Env) (uuid : String) : Except Err Machine × Calls :=
  (env.getMachineResult uuid, ⟨[uuid], 0⟩)

/-- The scan loop of `Instances.getMachineByName`: for each machine, in list
order, compare `PrimaryIP`, then `Name`, then `ID` against `serverName`; the
first machine with any match is returned. -/
def findMachineByName : List Machine → String → Option Machine
  | [], _ => none
  | machine :: rest, serverName =>
    if machine.primaryIP = serverName then some machine
    else if machine.name = serverName then some machine
    else if machine.id = serverName then some machine
    else findMachineByName rest serverName

/-- Embeds `Instances.getMachineByName`: one `ListMachines` call; on success
the scan loop runs, and exhausting it yields the `No machine found` error. -/
def getMachineByName (env : Env) (serverName : String) : Except Err Machine × Calls :=
  match env.listMachinesResult with
  | .error e => (.error e, ⟨[], 1⟩)
  | .ok machines =>
    match findMachineByName machines serverName with
    | some machine => (.ok machine, ⟨[], 1⟩)
    | none => (.error (.noMachineFound serverName), ⟨[], 1⟩)

/-- Embeds `Instances.probeNodeAddress`: self fast path (metadata hostname
match) does a direct get by the cached UUID and gates on `State == "running"`;
otherwise the peer fallback scans via `getMachineByName` with no state gate. -/
def probeNodeAddress (env : Env) (serverName : String) : Except Err String × Calls :=
  if env.metadata.hostname = serverName then
    match getMachineByUUID env env.metadata.uuid with
    | (.error e, calls) => (.error e, calls)
    | (.ok machine, calls) =>
      if machine.state ≠ "running" then (.error .instanceNotFound, calls)
      else (.ok machine.primaryIP, calls)
  else
    match getMachineByName env serverName with
    | (.error e, calls) => (.error e, calls)
    | (.ok machine, calls) => (.ok machine.primaryIP, calls)

/-- Embeds `Instances.probeMachineUUID`: like `probeNodeAddress` but returning
`ID`, and with the peer-fallback error replaced by
`cloudprovider.InstanceNotFound`. -/
def probeMachineUUID (env : Env) (serverName : String) : Except Err String × Calls :=
  if env.metadata.hostname = serverName then
    match getMachineByUUID env env.metadata.uuid with
    | (.error e, calls) => (.error e, calls)
    | (.ok machine, calls) =>
      if machine.state ≠ "running" then (.error .instanceNotFound, calls)
      else (.ok machine.id, calls)
  else
    match getMachineByName env serverName with
    | (.error _, calls) => (.error .instanceNotFound, calls)
    | (.ok machine, calls) => (.ok machine.id, calls)

/-- Embeds `Instances.probeMachineBrand`: like `probeNodeAddress` but
returning `Brand`; peer-fallback errors are returned unchanged. -/
def probeMachineBrand (env : Env) (serverName : String) : Except Err String × Calls :=
  if env.metadata.hostname = serverName then
    match getMachineByUUID env env.metadata.uuid with
    | (.error e, calls) => (.error e, calls)
    | (.ok machine, calls) =>
      if machine.state ≠ "running" then (.error .instanceNotFound, calls)
      else (.ok machine.brand, calls)
  else
    match getMachineByName env serverName with
    | (.error e, calls) => (.error e, calls)
    | (.ok machine, calls) => (.ok machine.brand, calls)

/-- Split a character list on `.` separators (the field structure Go's
`parseIPv4` walks through): the empty string yields one empty field, and each
dot opens a new field. -/
def splitOnDot : List Char → List (List Char)
  | [] => [[]]
  | c :: rest =>
    if c = '.' then [] :: splitOnDot rest
    else
      match splitOnDot rest with
      | field :: fields => (c :: field) :: fields
      | [] => [[c]]

/-- One decimal IPv4 octet as read by the Go parser's `dtoi`: nonempty, all
digits (leading zeros allowed), decimal value at most 255. -/
def octetVal (cs : List Char) : Option Nat :=
  if cs.isEmpty then none
  else if cs.all Char.isDigit then
    let n := cs.foldl (fun acc c => acc * 10 + (c.toNat - 48)) 0
    if n ≤ 255 then some n else none
  else none

/-- Models the Go standard library's `net.parseIPv4`: exactly four
dot-separated decimal octets, nothing else in the string. -/
def parseIPv4 (s : String) : Option (Nat × Nat × Nat × Nat) :=
  match splitOnDot s.toList with
  | [a, b, c, d] =>
    match octetVal a, octetVal b, octetVal c, octetVal d with
    | some x, some y, some z, some w => some (x, y, z, w)
    | _, _, _, _ => none
  | _ => none

/-- Canonical dotted-quad form, as produced by `net.IP.String` on an IPv4
address. -/
def ipToString (ip : Nat × Nat × Nat × Nat) : String :=
  toString ip.1 ++ "." ++ toString ip.2.1 ++ "." ++ toString ip.2.2.1 ++ "."
    ++ toString ip.2.2.2

/-- Models the collaborator expression `net.ParseIP(s).String()` used by
`NodeAddresses`, restricted to IPv4 dotted-quad literals (the address shape
this provider's machines carry); any unparseable string — including the empty
string — yields the string form of a nil `net.IP`, which is `"<nil>"`. -/
def goParseIPString (s : String) : String :=
  match parseIPv4 s with
  | some ip => ipToString ip
  | none => "<nil>"

/-- Embeds `api.NodeAddressType`: the three kinds `NodeAddresses` emits. -/
inductive NodeAddressType where
  | legacyHostIP : NodeAddressType
  | internalIP : NodeAddressType
  | externalIP : NodeAddressType
deriving DecidableEq, Repr

/-- Embeds `api.NodeAddress`. -/
structure NodeAddress where
  addrType : NodeAddressType
  address : String
deriving DecidableEq, Repr

/-- Embeds `Instances.NodeAddresses`: resolve via `probeNodeAddress`, then
emit the parsed IP under all three address kinds. -/
def NodeAddresses (env : Env) (name : String) : Except Err (List NodeAddress) × Calls :=
  match probeNodeAddress env name with
  | (.error e, calls) => (.error e, calls)
  | (.ok ip, calls) =>
    let parsedIP := goParseIPString ip
    (.ok [⟨.legacyHostIP, parsedIP⟩, ⟨.internalIP, parsedIP⟩, ⟨.externalIP, parsedIP⟩],
      calls)

/-- Embeds `Instances.ExternalID`: delegates to `probeMachineUUID`. -/
def ExternalID (env : Env) (name : String) : Except Err String × Calls :=
  probeMachineUUID env name

/-- Embeds `Instances.InstanceID`: delegates to `probeMachineUUID`. -/
def InstanceID (env : Env) (name : String) : Except Err String × Calls :=
  probeMachineUUID env name

/-- Embeds `Instances.InstanceType`: delegates to `probeMachineBrand`. -/
def InstanceType (env : Env) (name : String) : Except Err String × Calls :=
  probeMachineBrand env name

/-- Embeds `Instances.List`: one `ListMachines` call; the Go code allocates
`names := make([]types.NodeName, len(machines))` (length `len(machines)`,
zero-valued entries) and then `append`s every `machine.ID`, so the returned
slice is `len(machines)` empty strings followed by the IDs. The `filter`
argument is never consulted. -/
def listInstances (env : Env) (filter : String) : Except Err (List String) × Calls :=
  match env.listMachinesResult with
  | .error e => (.error e, ⟨[], 1⟩)
  | .ok machines =>
    (.ok (List.replicate machines.length "" ++ machines.map (fun machine => machine.id)),
      ⟨[], 1⟩)

/-- Embeds `initMetadata` (triton.go): the `sdc:uuid` probe is mandatory — its
failure is returned; the `sdc:hostname` probe is optional — on its failure the
hostname falls back to the UUID. Each probe of the in-guest `mdata-get`
mechanism is modelled by its outcome. -/
def initMetadata (uuidProbe hostnameProbe : Except String String) : Except String Metadata :=
  match uuidProbe with
  | .error e => .error e
  | .ok uuid =>
    let hname : String :=
      match hostnameProbe with
      | .ok out => out
      | .error _ => uuid
    .ok { uuid := uuid, hostname := hname }

/-! Concrete machines and environments used to instantiate the theorems, laid
out after the spec's worked scenario (`node-a` running, `node-b` stopped, a
self machine `u-123` named `self-node`). -/

/-- Running peer machine from the spec's scenario. -/
def machineA : Machine :=
  { id := "a1", primaryIP := "10.0.0.1", name := "node-a", state := "running"
    brand := "smartmachine" }

/-- Stopped peer machine from the spec's scenario. -/
def machineB : Machine :=
  { id := "b2", primaryIP := "10.0.0.2", name := "node-b", state := "stopped"
    brand := "kvm" }

/-- The local machine, running. -/
def selfRunning : Machine :=
  { id := "u-123", primaryIP := "10.0.0.3", name := "self-node", state := "running"
    brand := "smartmachine" }

/-- The local machine, stopped. -/
def selfStopped : Machine :=
  { id := "u-123", primaryIP := "10.0.0.3", name := "self-node", state := "stopped"
    brand := "smartmachine" }

/-- Directory with a running self machine and the two scenario peers. -/
def sampleEnv : Env :=
  { metadata := ⟨"u-123", "self-node"⟩
    getMachineResult := fun uuid =>
      if uuid = "u-123" then .ok selfRunning else .error (.network "no such machine")
    listMachinesResult := .ok [machineA, machineB] }

/-- Directory whose direct get finds the local machine stopped. -/
def envSelfStopped : Env :=
  { metadata := ⟨"u-123", "self-node"⟩
    getMachineResult := fun uuid =>
      if uuid = "u-123" then .ok selfStopped else .error (.network "no such machine")
    listMachinesResult := .ok [machineA, machineB] }

/-- Directory that is unreachable: both calls fail with transport errors. -/
def envUnreachable : Env :=
  { metadata := ⟨"u-123", "self-node"⟩
    getMachineResult := fun _ => .error (.network "unreachable")
    listMachinesResult := .error (.network "connection refused") }

/-- Directory holding a single running machine, for exercising `List`. -/
def envSingle : Env :=
  { metadata := ⟨"u-123", "self-node"⟩
    getMachineResult := fun _ => .error (.network "no such machine")
    listMachinesResult := .ok [machineA] }

/-- A running machine whose `PrimaryIP` field is the empty string. -/
def machineNoIP : Machine :=
  { id := "c3", primaryIP := "", name := "node-c", state := "running", brand := "lx" }

/-- Directory holding only the machine with the empty `PrimaryIP`. -/
def envNoIP : Env :=
  { metadata := ⟨"u-123", "self-node"⟩
    getMachineResult := fun _ => .error (.network "no such machine")
    listMachinesResult := .ok [machineNoIP] }

/-! Path lemmas: how each probe behaves on the self fast path and on the peer
fallback path, as equations conditioned on the directory's behaviour. -/

theorem getMachineByName_calls (env : Env) (serverName : String) :
    (getMachineByName env serverName).2 = ⟨[], 1⟩ := by
  cases hl : env.listMachinesResult with
  | error e => simp [getMachineByName, hl]
  | ok machines =>
    cases hf : findMachineByName machines serverName <;>
      simp [getMachineByName, hl, hf]

theorem probeNodeAddress_self_error (env : Env) (serverName : String) (e : Err)
    (hself : env.metadata.hostname = serverName)
    (hg : env.getMachineResult env.metadata.uuid = .error e) :
    probeNodeAddress env serverName = (.error e, ⟨[env.metadata.uuid], 0⟩) := by
  simp [probeNodeAddress, getMachineByUUID, hself, hg]

theorem probeNodeAddress_self_ok (env : Env) (serverName : String) (machine : Machine)
    (hself : env.metadata.hostname = serverName)
    (hg : env.getMachineResult env.metadata.uuid = .ok machine) :
    probeNodeAddress env serverName =
      if machine.state ≠ "running" then (.error .instanceNotFound, ⟨[env.metadata.uuid], 0⟩)
      else (.ok machine.primaryIP, ⟨[env.metadata.uuid], 0⟩) := by
  simp [probeNodeAddress, getMachineByUUID, hself, hg]

theorem probeNodeAddress_peer_error (env : Env) (serverName : String) (e : Err)
    (hne : env.metadata.hostname ≠ serverName)
    (hl : env.listMachinesResult = .error e) :
    probeNodeAddress env serverName = (.error e, ⟨[], 1⟩) := by
  simp [probeNodeAddress, getMachineByName, hne, hl]

theorem probeNodeAddress_peer_found (env : Env) (serverName : String)
    (machines : List Machine) (machine : Machine)
    (hne : env.metadata.hostname ≠ serverName)
    (hl : env.listMachinesResult = .ok machines)
    (hf : findMachineByName machines serverName = some machine) :
    probeNodeAddress env serverName = (.ok machine.primaryIP, ⟨[], 1⟩) := by
  simp [probeNodeAddress, getMachineByName, hne, hl, hf]

theorem probeNodeAddress_peer_nomatch (env : Env) (serverName : String)
    (machines : List Machine)
    (hne : env.metadata.hostname ≠ serverName)
    (hl : env.listMachinesResult = .ok machines)
    (hf : findMachineByName machines serverName = none) :
    probeNodeAddress env serverName = (.error (.noMachineFound serverName), ⟨[], 1⟩) := by
  simp [probeNodeAddress, getMachineByName, hne, hl, hf]

theorem probeMachineUUID_self_error (env : Env) (serverName : String) (e : Err)
    (hself : env.metadata.hostname = serverName)
    (hg : env.getMachineResult env.metadata.uuid = .error e) :
    probeMachineUUID env serverName = (.error e, ⟨[env.metadata.uuid], 0⟩) := by
  simp [probeMachineUUID, getMachineByUUID, hself, hg]

theorem probeMachineUUID_self_ok (env : Env) (serverName : String) (machine : Machine)
    (hself : env.metadata.hostname = serverName)
    (hg : env.getMachineResult env.metadata.uuid = .ok machine) :
    probeMachineUUID env serverName =
      if machine.state ≠ "running" then (.error .instanceNotFound, ⟨[env.metadata.uuid], 0⟩)
      else (.ok machine.id, ⟨[env.metadata.uuid], 0⟩) := by
  simp [probeMachineUUID, getMachineByUUID, hself, hg]

theorem probeMachineUUID_peer_error (env : Env) (serverName : String) (e : Err)
    (hne : env.metadata.hostname ≠ serverName)
    (hl : env.listMachinesResult = .error e) :
    probeMachineUUID env serverName = (.error .instanceNotFound, ⟨[], 1⟩) := by
  simp [probeMachineUUID, getMachineByName, hne, hl]

theorem probeMachineUUID_peer_found (env : Env) (serverName : String)
    (machines : List Machine) (machine : Machine)
    (hne : env.metadata.hostname ≠ serverName)
    (hl : env.listMachinesResult = .ok machines)
    (hf : findMachineByName machines serverName = some machine) :
    probeMachineUUID env serverName = (.ok machine.id, ⟨[], 1⟩) := by
  simp [probeMachineUUID, getMachineByName, hne, hl, hf]

theorem probeMachineUUID_peer_nomatch (env : Env) (serverName : String)
    (machines : List Machine)
    (hne : env.metadata.hostname ≠ serverName)
    (hl : env.listMachinesResult = .ok machines)
    (hf : findMachineByName machines serverName = none) :
    probeMachineUUID env serverName = (.error .instanceNotFound, ⟨[], 1⟩) := by
  simp [probeMachineUUID, getMachineByName, hne, hl, hf]

theorem probeMachineBrand_self_error (env : Env) (serverName : String) (e : Err)
    (hself : env.metadata.hostname = serverName)
    (hg : env.getMachineResult env.metadata.uuid = .error e) :
    probeMachineBrand env serverName = (.error e, ⟨[env.metadata.uuid], 0⟩) := by
  simp [probeMachineBrand, getMachineByUUID, hself, hg]

theorem probeMachineBrand_self_ok (env : Env) (serverName : String) (machine : Machine)
    (hself : env.metadata.hostname = serverName)
    (hg : env.getMachineResult env.metadata.uuid = .ok machine) :
    probeMachineBrand env serverName =
      if machine.state ≠ "running" then (.error .instanceNotFound, ⟨[env.metadata.uuid], 0⟩)
      else (.ok machine.brand, ⟨[env.metadata.uuid], 0⟩) := by
  simp [probeMachineBrand, getMachineByUUID, hself, hg]

theorem probeMachineBrand_peer_error (env : Env) (serverName : String) (e : Err)
    (hne : env.metadata.hostname ≠ serverName)
    (hl : env.listMachinesResult = .error e) :
    probeMachineBrand env serverName = (.error e, ⟨[], 1⟩) := by
  simp [probeMachineBrand, getMachineByName, hne, hl]

theorem probeMachineBrand_peer_found (env : Env) (serverName : String)
    (machines : List Machine) (machine : Machine)
    (hne : env.metadata.hostname ≠ serverName)
    (hl : env.listMachinesResult = .ok machines)
    (hf : findMachineByName machines serverName = some machine) :
    probeMachineBrand env serverName = (.ok machine.brand, ⟨[], 1⟩) := by
  simp [probeMachineBrand, getMachineByName, hne, hl, hf]

theorem probeMachineBrand_peer_nomatch (env : Env) (serverName : String)
    (machines : List Machine)
    (hne : env.metadata.hostname ≠ serverName)
    (hl : env.listMachinesResult = .ok machines)
    (hf : findMachineByName machines serverName = none) :
    probeMachineBrand env serverName = (.error (.noMachineFound serverName), ⟨[], 1⟩) := by
  simp [probeMachineBrand, getMachineByName, hne, hl, hf]

theorem findMachineByName_eq_find (machines : List Machine) (serverName : String) :
    findMachineByName machines serverName =
      machines.find? (fun machine =>
        machine.primaryIP == serverName || machine.name == serverName
          || machine.id == serverName) := by
  induction machines with
  | nil => rfl
  | cons machine rest ih =>
    by_cases h1 : machine.primaryIP = serverName
    · simp [findMachineByName, List.find?, h1]
    · by_cases h2 : machine.name = serverName
      · simp [findMachineByName, List.find?, h1, h2]
      · by_cases h3 : machine.id = serverName
        · simp [findMachineByName, List.find?, h1, h2, h3]
        · have hb : (machine.primaryIP == serverName || machine.name == serverName
              || machine.id == serverName) = false := by
            simp [h1, h2, h3]
          simp [findMachineByName, List.find?, h1, h2, h3, hb, ih]

/-! Claim theorems. -/

/-- C1: for every identifier equal to the cached local host name, each of
`probeNodeAddress`, `probeMachineUUID` and `probeMachineBrand` issues exactly
one `GetMachine` call, with the cached `Metadata.UUID` as its argument, and no
`ListMachines` call; and if the record that direct get returns has state other
than `"running"`, each operation fails with `cloudprovider.InstanceNotFound`. -/
theorem C1_self_fast_path (env : Env) (serverName : String)
    (hself : env.metadata.hostname = serverName) :
    ((probeNodeAddress env serverName).2 = ⟨[env.metadata.uuid], 0⟩ ∧
     (probeMachineUUID env serverName).2 = ⟨[env.metadata.uuid], 0⟩ ∧
     (probeMachineBrand env serverName).2 = ⟨[env.metadata.uuid], 0⟩) ∧
    ∀ machine, env.getMachineResult env.metadata.uuid = .ok machine →
      machine.state ≠ "running" →
      (probeNodeAddress env serverName).1 = .error .instanceNotFound ∧
      (probeMachineUUID env serverName).1 = .error .instanceNotFound ∧
      (probeMachineBrand env serverName).1 = .error .instanceNotFound := by
  constructor
  · cases hg : env.getMachineResult env.metadata.uuid with
    | error e =>
      rw [probeNodeAddress_self_error env serverName e hself hg,
        probeMachineUUID_self_error env serverName e hself hg,
        probeMachineBrand_self_error env serverName e hself hg]
      exact ⟨rfl, rfl, rfl⟩
    | ok machine =>
      rw [probeNodeAddress_self_ok env serverName machine hself hg,
        probeMachineUUID_self_ok env serverName machine hself hg,
        probeMachineBrand_self_ok env serverName machine hself hg]
      by_cases hs : machine.state = "running" <;> simp [hs]
  · intro machine hg hs
    rw [probeNodeAddress_self_ok env serverName machine hself hg,
      probeMachineUUID_self_ok env serverName machine hself hg,
      probeMachineBrand_self_ok env serverName machine hself hg]
    simp [hs]

/-- C1 witness: with the local machine stopped, resolving the local host name
issues one direct get with the cached UUID, no enumeration, and fails with
`InstanceNotFound` in all three probes. -/
theorem C1_self_fast_path_witness :
    (probeNodeAddress envSelfStopped "self-node").2 = ⟨["u-123"], 0⟩ ∧
    (probeMachineUUID envSelfStopped "self-node").2 = ⟨["u-123"], 0⟩ ∧
    (probeMachineBrand envSelfStopped "self-node").2 = ⟨["u-123"], 0⟩ ∧
    (probeNodeAddress envSelfStopped "self-node").1 = .error .instanceNotFound ∧
    (probeMachineUUID envSelfStopped "self-node").1 = .error .instanceNotFound ∧
    (probeMachineBrand envSelfStopped "self-node").1 = .error .instanceNotFound := by
  have h := C1_self_fast_path envSelfStopped "self-node" rfl
  have h2 := h.2 selfStopped rfl (by decide)
  exact ⟨h.1.1, h.1.2.1, h.1.2.2, h2.1, h2.2.1, h2.2.2⟩

/-- C2: for every identifier different from the cached local host name, the
peer resolution issues exactly one `ListMachines` call and no `GetMachine`
call; on a successful enumeration its result is the first record whose
`PrimaryIP`, `Name` or `ID` equals the identifier (fields tested in that order
within each record, first matching record wins), and when every record of the
enumeration fails all three comparisons it returns the `No machine found`
error. -/
theorem C2_peer_enumeration (env : Env) (serverName : String)
    (hne : env.metadata.hostname ≠ serverName) :
    ((getMachineByName env serverName).2 = ⟨[], 1⟩ ∧
     (probeNodeAddress env serverName).2 = ⟨[], 1⟩ ∧
     (probeMachineUUID env serverName).2 = ⟨[], 1⟩ ∧
     (probeMachineBrand env serverName).2 = ⟨[], 1⟩) ∧
    (∀ machines, env.listMachinesResult = .ok machines →
      (getMachineByName env serverName).1 =
        match machines.find? (fun machine =>
            machine.primaryIP == serverName || machine.name == serverName
              || machine.id == serverName) with
        | some machine => .ok machine
        | none => .error (.noMachineFound serverName)) ∧
    (∀ machines, env.listMachinesResult = .ok machines →
      (∀ machine ∈ machines, machine.primaryIP ≠ serverName ∧
        machine.name ≠ serverName ∧ machine.id ≠ serverName) →
      (getMachineByName env serverName).1 = .error (.noMachineFound serverName)) := by
  refine ⟨⟨getMachineByName_calls env serverName, ?_, ?_, ?_⟩, ?_, ?_⟩
  · cases hl : env.listMachinesResult with
    | error e => rw [probeNodeAddress_peer_error env serverName e hne hl]
    | ok machines =>
      cases hf : findMachineByName machines serverName with
      | some machine =>
        rw [probeNodeAddress_peer_found env serverName machines machine hne hl hf]
      | none => rw [probeNodeAddress_peer_nomatch env serverName machines hne hl hf]
  · cases hl : env.listMachinesResult with
    | error e => rw [probeMachineUUID_peer_error env serverName e hne hl]
    | ok machines =>
      cases hf : findMachineByName machines serverName with
      | some machine =>
        rw [probeMachineUUID_peer_found env serverName machines machine hne hl hf]
      | none => rw [probeMachineUUID_peer_nomatch env serverName machines hne hl hf]
  · cases hl : env.listMachinesResult with
    | error e => rw [probeMachineBrand_peer_error env serverName e hne hl]
    | ok machines =>
      cases hf : findMachineByName machines serverName with
      | some machine =>
        rw [probeMachineBrand_peer_found env serverName machines machine hne hl hf]
      | none => rw [probeMachineBrand_peer_nomatch env serverName machines hne hl hf]
  · intro machines hl
    rw [← findMachineByName_eq_find]
    cases hf : findMachineByName machines serverName <;> simp [getMachineByName, hl, hf]
  · intro machines hl hall
    have hf : findMachineByName machines serverName = none := by
      rw [findMachineByName_eq_find]
      rw [List.find?_eq_none]
      intro machine hm
      obtain ⟨ha, hb, hc⟩ := hall machine hm
      simp [ha, hb, hc]
    simp [getMachineByName, hl, hf]

/-- C2 witness: in the scenario directory, resolving `"node-b"` enumerates
once and returns the stopped machine `b2` (matched on `Name`), and resolving
`"nonexistent"` enumerates once and fails with the `No machine found` error. -/
theorem C2_peer_enumeration_witness :
    (getMachineByName sampleEnv "node-b").2 = ⟨[], 1⟩ ∧
    (probeMachineUUID sampleEnv "node-b").2 = ⟨[], 1⟩ ∧
    (getMachineByName sampleEnv "node-b").1 = .ok machineB ∧
    (getMachineByName sampleEnv "nonexistent").1 =
      .error (.noMachineFound "nonexistent") := by
  have h := C2_peer_enumeration sampleEnv "node-b" (by decide)
  have h2 := C2_peer_enumeration sampleEnv "nonexistent" (by decide)
  refine ⟨h.1.1, h.1.2.2.1, ?_, ?_⟩
  · rw [h.2.1 [machineA, machineB] rfl]; rfl
  · rw [h2.2.1 [machineA, machineB] rfl]; rfl

/-- C9: `ExternalID` and `InstanceID` agree on every node name in every fixed
directory/metadata state — both delegate to `probeMachineUUID`, so they return
the same string on success, the same error on failure, and issue the same
directory calls. -/
theorem C9_externalID_eq_instanceID (env : Env) (name : String) :
    ExternalID env name = InstanceID env name := rfl

/-- C3: code-bug evidence — `machineB` is stopped, yet resolving `"node-b"`
through the peer enumeration makes `ExternalID` and `InstanceID` return its id
`"b2"`; the running-state gate the claim (and the code's own doc comment on
`ExternalID`) requires is applied on the self fast path only. -/
theorem C3_stopped_peer_returns_id :
    machineB.state = "stopped" ∧
    (ExternalID sampleEnv "node-b").1 = .ok "b2" ∧
    (InstanceID sampleEnv "node-b").1 = .ok "b2" := ⟨rfl, rfl, rfl⟩

/-- C4 counterexample: with the directory unreachable (`ListMachines` fails
with a network error), `probeMachineUUID` on a peer identifier returns the
`InstanceNotFound` sentinel instead of propagating the network error
unchanged. -/
theorem C4_network_error_swallowed :
    envUnreachable.listMachinesResult = .error (.network "connection refused") ∧
    (probeMachineUUID envUnreachable "node-x").1 = .error .instanceNotFound ∧
    (probeMachineUUID envUnreachable "node-x").1 ≠
      .error (.network "connection refused") :=
  ⟨rfl, rfl, by decide⟩

/-- C4 (amended): directory errors are propagated unchanged by
`probeNodeAddress` and `probeMachineBrand` on both paths and by
`probeMachineUUID` on the self fast path; but on the peer path
`probeMachineUUID` maps every `getMachineByName` failure — network errors
included — to `InstanceNotFound`. -/
theorem C4_error_propagation (env : Env) (serverName : String) (e : Err) :
    (env.metadata.hostname = serverName →
      env.getMachineResult env.metadata.uuid = .error e →
      (probeNodeAddress env serverName).1 = .error e ∧
      (probeMachineUUID env serverName).1 = .error e ∧
      (probeMachineBrand env serverName).1 = .error e) ∧
    (env.metadata.hostname ≠ serverName →
      env.listMachinesResult = .error e →
      (probeNodeAddress env serverName).1 = .error e ∧
      (probeMachineBrand env serverName).1 = .error e ∧
      (probeMachineUUID env serverName).1 = .error .instanceNotFound) := by
  constructor
  · intro hself hg
    rw [probeNodeAddress_self_error env serverName e hself hg,
      probeMachineUUID_self_error env serverName e hself hg,
      probeMachineBrand_self_error env serverName e hself hg]
    exact ⟨rfl, rfl, rfl⟩
  · intro hne hl
    rw [probeNodeAddress_peer_error env serverName e hne hl,
      probeMachineBrand_peer_error env serverName e hne hl,
      probeMachineUUID_peer_error env serverName e hne hl]
    exact ⟨rfl, rfl, rfl⟩

/-- C4 witness: against the unreachable directory, the self path propagates
the `GetMachine` transport error and the peer path propagates the
`ListMachines` transport error through `probeNodeAddress` and
`probeMachineBrand`. -/
theorem C4_error_propagation_witness :
    (probeNodeAddress envUnreachable "self-node").1 = .error (.network "unreachable") ∧
    (probeNodeAddress envUnreachable "node-x").1 =
      .error (.network "connection refused") ∧
    (probeMachineBrand envUnreachable "node-x").1 =
      .error (.network "connection refused") := by
  have h :=
    (C4_error_propagation envUnreachable "self-node" (.network "unreachable")).1 rfl rfl
  have h2 :=
    (C4_error_propagation envUnreachable "node-x" (.network "connection refused")).2
      (by decide) rfl
  exact ⟨h.1, h2.1, h2.2.1⟩

/-- C5 counterexample: the identifier `"self-node"` resolves — the direct get
returns the stopped local record, which carries brand `"smartmachine"` — yet
`InstanceType` fails with `InstanceNotFound` instead of returning the brand:
the self fast path does apply a running-state check before reading `Brand`. -/
theorem C5_self_state_check :
    envSelfStopped.getMachineResult envSelfStopped.metadata.uuid = .ok selfStopped ∧
    selfStopped.brand = "smartmachine" ∧
    selfStopped.state ≠ "running" ∧
    (InstanceType envSelfStopped "self-node").1 = .error .instanceNotFound :=
  ⟨rfl, rfl, by decide, rfl⟩

/-- C5 (amended): `InstanceType` delegates to `probeMachineBrand`; on the peer
fallback path a matched machine's brand is returned with no state check (so it
succeeds even for a non-running machine), while on the self fast path the
brand is returned only when the record is running and a non-running record
yields `InstanceNotFound`. -/
theorem C5_instanceClass_state_gate (env : Env) (serverName : String) :
    InstanceType env serverName = probeMachineBrand env serverName ∧
    (env.metadata.hostname ≠ serverName →
      ∀ machines machine, env.listMachinesResult = .ok machines →
        findMachineByName machines serverName = some machine →
        (InstanceType env serverName).1 = .ok machine.brand) ∧
    (env.metadata.hostname = serverName →
      ∀ machine, env.getMachineResult env.metadata.uuid = .ok machine →
        (machine.state = "running" →
          (InstanceType env serverName).1 = .ok machine.brand) ∧
        (machine.state ≠ "running" →
          (InstanceType env serverName).1 = .error .instanceNotFound)) := by
  refine ⟨rfl, ?_, ?_⟩
  · intro hne machines machine hl hf
    show (probeMachineBrand env serverName).1 = _
    rw [probeMachineBrand_peer_found env serverName machines machine hne hl hf]
  · intro hself machine hg
    constructor
    · intro hs
      show (probeMachineBrand env serverName).1 = _
      rw [probeMachineBrand_self_ok env serverName machine hself hg]
      simp [hs]
    · intro hs
      show (probeMachineBrand env serverName).1 = _
      rw [probeMachineBrand_self_ok env serverName machine hself hg]
      simp [hs]

/-- C5 witness: the stopped peer `node-b` still answers the class query with
its brand `"kvm"`, and the running self machine answers with
`"smartmachine"`. -/
theorem C5_instanceClass_state_gate_witness :
    machineB.state ≠ "running" ∧
    (InstanceType sampleEnv "node-b").1 = .ok "kvm" ∧
    (InstanceType sampleEnv "self-node").1 = .ok "smartmachine" := by
  have h := (C5_instanceClass_state_gate sampleEnv "node-b").2.1 (by decide)
    [machineA, machineB] machineB rfl rfl
  have h2 :=
    ((C5_instanceClass_state_gate sampleEnv "self-node").2.2 rfl selfRunning rfl).1 rfl
  exact ⟨by decide, h, h2⟩

/-- C6: code-bug evidence — `List` allocates its names slice with
`make([]types.NodeName, len(machines))` and then appends every id, so for a
directory holding exactly the one machine `a1` it returns the two-element list
`["", "a1"]` (a zero-valued padding entry followed by the id) instead of the
one-element list `["a1"]` with the ids in enumeration order. -/
theorem C6_list_padding_bug :
    envSingle.listMachinesResult = .ok [machineA] ∧
    (listInstances envSingle "").1 = .ok ["", "a1"] ∧
    (listInstances envSingle "").1 ≠ .ok ["a1"] :=
  ⟨rfl, rfl, by decide⟩

/-- C7: `initMetadata` fails exactly when the unique-ID probe fails, returning
that probe's error; when the unique-ID probe succeeds and the host-name probe
fails, it succeeds with the hostname falling back to the UUID; and when both
probes succeed it returns the probed UUID and the probed hostname. -/
theorem C7_initMetadata_fallback (uuidProbe hostnameProbe : Except String String) :
    ((∃ m, initMetadata uuidProbe hostnameProbe = .ok m) ↔ ∃ u, uuidProbe = .ok u) ∧
    (∀ e, uuidProbe = .error e → initMetadata uuidProbe hostnameProbe = .error e) ∧
    (∀ u e, uuidProbe = .ok u → hostnameProbe = .error e →
      initMetadata uuidProbe hostnameProbe = .ok ⟨u, u⟩) ∧
    (∀ u h, uuidProbe = .ok u → hostnameProbe = .ok h →
      initMetadata uuidProbe hostnameProbe = .ok ⟨u, h⟩) := by
  refine ⟨⟨?_, ?_⟩, ?_, ?_, ?_⟩
  · rintro ⟨m, hm⟩
    cases hu : uuidProbe with
    | error e => rw [hu] at hm; simp [initMetadata] at hm
    | ok u => exact ⟨u, rfl⟩
  · rintro ⟨u, hu⟩
    cases hh : hostnameProbe with
    | error e => exact ⟨⟨u, u⟩, by rw [hu]; rfl⟩
    | ok hname => exact ⟨⟨u, hname⟩, by rw [hu]; rfl⟩
  · intro e hu
    rw [hu]; rfl
  · intro u e hu hh
    rw [hu, hh]; rfl
  · intro u hname hu hh
    rw [hu, hh]; rfl

/-- C7 witness: concrete probe outcomes — hostname probe failure falls back to
the UUID, both probes succeeding yields both values, and a failed UUID probe
is fatal with its own error. -/
theorem C7_initMetadata_fallback_witness :
    initMetadata (.ok "u-1") (.error "timeout") = .ok ⟨"u-1", "u-1"⟩ ∧
    initMetadata (.ok "u-1") (.ok "host-1") = .ok ⟨"u-1", "host-1"⟩ ∧
    initMetadata (.error "mdata-get failed") (.ok "host-1") =
      .error "mdata-get failed" := by
  refine ⟨?_, ?_, ?_⟩
  · exact (C7_initMetadata_fallback (.ok "u-1") (.error "timeout")).2.2.1
      "u-1" "timeout" rfl rfl
  · exact (C7_initMetadata_fallback (.ok "u-1") (.ok "host-1")).2.2.2
      "u-1" "host-1" rfl rfl
  · exact (C7_initMetadata_fallback (.error "mdata-get failed") (.ok "host-1")).2.1
      "mdata-get failed" rfl

/-- C8 counterexample: the machine `c3` resolves successfully via the peer
path and its primary IP is the empty string, but `NodeAddresses` emits three
entries whose value is `"<nil>"` — the string form of `net.ParseIP("")` — and
not the machine's primary IP. -/
theorem C8_unparsed_ip :
    (probeNodeAddress envNoIP "c3").1 = .ok machineNoIP.primaryIP ∧
    (NodeAddresses envNoIP "c3").1 = .ok
      [⟨.legacyHostIP, "<nil>"⟩, ⟨.internalIP, "<nil>"⟩, ⟨.externalIP, "<nil>"⟩] ∧
    ("<nil>" : String) ≠ machineNoIP.primaryIP :=
  ⟨rfl, rfl, by decide⟩

/-- C8 (amended): for every identifier that resolves successfully with primary
IP `ip`, `NodeAddresses` returns exactly three entries, tagged legacy-host,
internal and external, each carrying `net.ParseIP(ip).String()`; whenever that
canonicalization leaves `ip` unchanged — in particular for every canonical
IPv4 literal — all three values equal the resolved machine's primary IP. -/
theorem C8_addresses_shape (env : Env) (name ip : String)
    (hres : (probeNodeAddress env name).1 = .ok ip) :
    (NodeAddresses env name).1 = .ok
      [⟨.legacyHostIP, goParseIPString ip⟩, ⟨.internalIP, goParseIPString ip⟩,
        ⟨.externalIP, goParseIPString ip⟩] ∧
    (goParseIPString ip = ip →
      (NodeAddresses env name).1 = .ok
        [⟨.legacyHostIP, ip⟩, ⟨.internalIP, ip⟩, ⟨.externalIP, ip⟩]) := by
  have hmain : (NodeAddresses env name).1 = .ok
      [⟨.legacyHostIP, goParseIPString ip⟩, ⟨.internalIP, goParseIPString ip⟩,
        ⟨.externalIP, goParseIPString ip⟩] := by
    rcases hp : probeNodeAddress env name with ⟨res, calls⟩
    rw [hp] at hres
    simp only at hres
    subst hres
    simp [NodeAddresses, hp]
  refine ⟨hmain, fun hcanon => ?_⟩
  rw [hmain, hcanon]

/-- C8 witness: the spec's scenario — resolving `"10.0.0.1"` yields an address
list of three entries all carrying `"10.0.0.1"`. -/
theorem C8_addresses_shape_witness :
    (NodeAddresses sampleEnv "10.0.0.1").1 = .ok
      [⟨.legacyHostIP, "10.0.0.1"⟩, ⟨.internalIP, "10.0.0.1"⟩,
        ⟨.externalIP, "10.0.0.1"⟩] :=
  (C8_addresses_shape sampleEnv "10.0.0.1" "10.0.0.1" rfl).2 rfl

/-- C10: on the peer fallback path the not-running gate is absent — with no
hypothesis on the matched machine's state, `probeNodeAddress` returns its
primary IP and `NodeAddresses` succeeds with the three tagged entries. -/
theorem C10_peer_no_state_gate (env : Env) (serverName : String)
    (machines : List Machine) (machine : Machine)
    (hne : env.metadata.hostname ≠ serverName)
    (hl : env.listMachinesResult = .ok machines)
    (hf : findMachineByName machines serverName = some machine) :
    (probeNodeAddress env serverName).1 = .ok machine.primaryIP ∧
    (NodeAddresses env serverName).1 = .ok
      [⟨.legacyHostIP, goParseIPString machine.primaryIP⟩,
        ⟨.internalIP, goParseIPString machine.primaryIP⟩,
        ⟨.externalIP, goParseIPString machine.primaryIP⟩] := by
  have hp := probeNodeAddress_peer_found env serverName machines machine hne hl hf
  constructor
  · rw [hp]
  · simp [NodeAddresses, hp]

/-- C10 witness: the stopped peer `node-b`, matched by its primary IP, still
resolves to that IP and `NodeAddresses` succeeds on it. -/
theorem C10_peer_no_state_gate_witness :
    machineB.state ≠ "running" ∧
    (probeNodeAddress sampleEnv "10.0.0.2").1 = .ok "10.0.0.2" ∧
    (NodeAddresses sampleEnv "10.0.0.2").1 = .ok
      [⟨.legacyHostIP, "10.0.0.2"⟩, ⟨.internalIP, "10.0.0.2"⟩,
        ⟨.externalIP, "10.0.0.2"⟩] := by
  have h := C10_peer_no_state_gate sampleEnv "10.0.0.2" [machineA, machineB] machineB
    (by decide) rfl rfl
  exact ⟨by decide, h.1, h.2⟩
